import Mathlib

/-
Shallow embedding of `src/telegram_bot.py` (UniShark Telegram bot).

The bot's Update Dispatcher consists of two handlers registered on the
application (a `CommandHandler` for `/start` and a `MessageHandler` for
plain text), a webhook HTTP listener with a health endpoint, and a
startup mode selection between webhook and polling ingress.
-/

namespace UniSharkBot

/-- Python's `needle in haystack` substring test on strings,
as character-list infix. -/
def pyIn (needle haystack : String) : Bool :=
  decide (needle.data <:+: haystack.data)

/-- Python truthiness of an optional environment string:
`not X` is true exactly when `X` is `None` or the empty string. -/
def pyTruthy : Option String → Bool
  | none => false
  | some s => s ≠ ""

/-- One inbound text update: chat id, sender first name, message text
(the fields of `telegram.Update` that the handlers read). -/
structure Update where
  chatId : Int
  userFirstName : String
  messageText : String
deriving DecidableEq

/-- An inline keyboard button: label plus target URL. -/
structure InlineKeyboardButton where
  label : String
  url : String
deriving DecidableEq

/-- An outbound reply: text plus an inline keyboard given as rows of buttons
(empty when the reply carries no markup). -/
structure Reply where
  text : String
  replyMarkup : List (List InlineKeyboardButton)
deriving DecidableEq

/-- The single button built at line 45 of the source. -/
def unisharkButton : InlineKeyboardButton :=
  { label := "Go to UniShark Website", url := "https://unishark.site" }

/-- The welcome text built by `start` (the f-string at lines 29-42),
with the sender first name and the chat id interpolated. -/
def startMessage (firstName : String) (chatId : Int) : String :=
  "<b>👋 Welcome to UniShark Bot, " ++ firstName ++ "!</b> 🦈\n\n" ++
  "I\x27m here to help you stay on top of your university tasks. Here is your unique ID to connect me to your account:\n\n" ++
  "🔑 <b>Your Personal Chat ID is:</b> <code>" ++ toString chatId ++ "</code>\n\n" ++
  "<b>Action Required:</b>\n" ++
  "1️⃣ Copy the Chat ID above.\n" ++
  "2️⃣ Go to your UniShark settings page.\n" ++
  "3️⃣ Paste the ID into the \x27Telegram Chat ID\x27 field.\n\n" ++
  "Once connected, I\x27ll send you instant notifications for:\n" ++
  "- 📝 New Assignments\n" ++
  "- ❓ New Quizzes\n" ++
  "- ⏰ Approaching Deadlines\n\n" ++
  "Good luck with your studies! 🎓"

/-- The `/start` handler (lines 22-53): reply with the welcome message and
one inline keyboard row holding the single website button. -/
def start (u : Update) : Reply :=
  { text := startMessage u.userFirstName u.chatId
  , replyMarkup := [[unisharkButton]] }

/-- The plain-text handler `handle_message` (lines 55-62): exact match for
the first trigger phrase, substring match for the second, otherwise no
reply. -/
def handle_message (text : String) : Option String :=
  if text = "كسمك" then some "الله يسامحك"
  else if pyIn "حرفوش" text then some "حرفوش عمك"
  else none

/-- `filters.COMMAND`: a text message whose text begins with "/". -/
def filters_COMMAND (t : String) : Bool :=
  decide ("/".data <+: t.data)

/-- The command name carried by a command text: the token after the leading
"/", up to a space, with any "@botname" suffix stripped. -/
def commandOf (t : String) : Option String :=
  if filters_COMMAND t then
    some ⟨((t.data.drop 1).takeWhile (fun c => c != ' ')).takeWhile (fun c => c != '@')⟩
  else none

/-- The two handlers registered on the application. -/
inductive Handler where
  | startHandler
  | messageHandler
deriving DecidableEq

/-- Handler selection as registered at lines 82-83 (and 164-165):
`CommandHandler "start"` first, then `MessageHandler (TEXT & ~COMMAND)`;
the first handler whose filter matches receives the update. -/
def handlerFor (t : String) : Option Handler :=
  if commandOf t = some "start" then some .startHandler
  else if !(filters_COMMAND t) then some .messageHandler
  else none

/-- The Update Dispatcher: route one text update through the registered
handlers, producing at most one outbound reply. -/
def dispatch (u : Update) : Option Reply :=
  match handlerFor u.messageText with
  | some .startHandler => some (start u)
  | some .messageHandler =>
      (handle_message u.messageText).map (fun s => { text := s, replyMarkup := [] })
  | none => none

/-- Result of decoding the body of a webhook POST into an update
(`Update.de_json` at line 122). -/
inductive WebhookBody where
  | valid (u : Update)
  | malformed
deriving DecidableEq

/-- The webhook POST handler `telegram_webhook` (lines 118-127): a decoded
update is put on the update queue and answered 200 with an empty body; any
decode or processing failure is caught and answered 500 with an empty body. -/
def telegram_webhook (queue : List Update) (body : WebhookBody) :
    (Nat × String) × List Update :=
  match body with
  | .valid u => ((200, ""), queue ++ [u])
  | .malformed => ((500, ""), queue)

/-- The listener serving a sequence of webhook requests one after the other,
threading the update queue: each request gets its own response and the
listener keeps running after a failure. -/
def processRequests (queue : List Update) :
    List WebhookBody → List (Nat × String) × List Update
  | [] => ([], queue)
  | r :: rest =>
    let step := telegram_webhook queue r
    let recur := processRequests step.2 rest
    (step.1 :: recur.1, recur.2)

/-- The health handler `health_check` (lines 64-66): always 200 with body
"OK\n", ignoring the request and any bot or platform state. -/
def health_check {α : Type} (_request : α) : Nat × String := (200, "OK\n")

/-- GET routing as registered at lines 114-115: both `/` and `/health` are
mapped to `health_check`; `st` stands for whatever bot/platform state the
server holds. -/
def routeGet {α : Type} (st : α) (path : String) : Option (Nat × String) :=
  if path = "/" then some (health_check st)
  else if path = "/health" then some (health_check st)
  else none

/-- The environment configuration read at lines 18-20 (a variable read with
`os.getenv` is `none` when absent). -/
structure Config where
  TELEGRAM_BOT_TOKEN : Option String
  WEBHOOK_URL : Option String

/-- The local-environment test at line 198:
`not WEBHOOK_URL or "localhost" in WEBHOOK_URL or "127.0.0.1" in WEBHOOK_URL`
(the two substring tests are only reached when the URL is truthy). -/
def is_local (cfg : Config) : Bool :=
  !(pyTruthy cfg.WEBHOOK_URL)
    || pyIn "localhost" (cfg.WEBHOOK_URL.getD "")
    || pyIn "127.0.0.1" (cfg.WEBHOOK_URL.getD "")

/-- The three possible outcomes of `main` (lines 185-215). -/
inductive Mode where
  | exitNoServe
  | polling
  | webhook
deriving DecidableEq

/-- Mode selection in `main`: return without serving when the token is
missing, otherwise choose polling or webhook once, from `is_local`. -/
def mainMode (cfg : Config) : Mode :=
  if !(pyTruthy cfg.TELEGRAM_BOT_TOKEN) then .exitNoServe
  else if is_local cfg then .polling
  else .webhook

/-- Observable startup effects of the process, in program order. -/
inductive Effect where
  | logError
  | createApp
  | addHandlers
  | initializeApp
  | startApp
  | deleteWebhook (dropPendingUpdates : Bool)
  | setWebhook (url : String) (dropPendingUpdates : Bool)
  | openListener (host : String) (port : Nat)
  | startPolling
deriving DecidableEq

/-- Effect trace of `run_bot_polling` (lines 156-183): the webhook is
deleted with pending updates dropped before polling is started. -/
def run_bot_polling_trace : List Effect :=
  [ .createApp, .addHandlers, .deleteWebhook true,
    .initializeApp, .startApp, .startPolling ]

/-- Effect trace of `run_bot_with_health_check` (lines 68-147), up to the
point where the server is up: the webhook is registered at
`WEBHOOK_URL + token` and the listener is opened on `0.0.0.0:PORT`. -/
def run_bot_with_health_check_trace (token url : String) (port : Nat) :
    List Effect :=
  [ .createApp, .addHandlers, .initializeApp, .startApp,
    .setWebhook (url ++ token) true, .openListener "0.0.0.0" port ]

/-- Effect trace of `main` (lines 185-215): with the token missing only an
error is logged; otherwise exactly one of the two variants runs. -/
def mainTrace (cfg : Config) (port : Nat) : List Effect :=
  if !(pyTruthy cfg.TELEGRAM_BOT_TOKEN) then [.logError]
  else if is_local cfg then run_bot_polling_trace
  else
    run_bot_with_health_check_trace (cfg.TELEGRAM_BOT_TOKEN.getD "")
      (cfg.WEBHOOK_URL.getD "") port

/-! Helper lemmas shared by the claim theorems. -/

/-- Decomposing the welcome text: the part before the first name. -/
def startPre : String := "<b>👋 Welcome to UniShark Bot, "

/-- Decomposing the welcome text: the part between the first name and the
chat id. -/
def startMid : String :=
  "!</b> 🦈\n\n" ++
  "I\x27m here to help you stay on top of your university tasks. Here is your unique ID to connect me to your account:\n\n" ++
  "🔑 <b>Your Personal Chat ID is:</b> <code>"

/-- Decomposing the welcome text: the part after the chat id. -/
def startPost : String :=
  "</code>\n\n" ++
  "<b>Action Required:</b>\n" ++
  "1️⃣ Copy the Chat ID above.\n" ++
  "2️⃣ Go to your UniShark settings page.\n" ++
  "3️⃣ Paste the ID into the \x27Telegram Chat ID\x27 field.\n\n" ++
  "Once connected, I\x27ll send you instant notifications for:\n" ++
  "- 📝 New Assignments\n" ++
  "- ❓ New Quizzes\n" ++
  "- ⏰ Approaching Deadlines\n\n" ++
  "Good luck with your studies! 🎓"

/-- A string sitting between two known parts is a `pyIn`-substring. -/
theorem pyIn_of_parts (m s : String) (a b : List Char)
    (h : s.data = a ++ m.data ++ b) : pyIn m s = true := by
  have : m.data <:+: s.data := h ▸ List.infix_append a m.data b
  simpa [pyIn] using this

/-- On a text different from the first trigger, `handle_message` yields
either nothing or the second canned phrase. -/
theorem handle_message_ne (t : String) (h : t ≠ "كسمك") :
    handle_message t = none ∨ handle_message t = some "حرفوش عمك" := by
  unfold handle_message
  rw [if_neg h]
  by_cases hp : pyIn "حرفوش" t = true
  · right; rw [if_pos hp]
  · left; rw [if_neg hp]

/-- C1: for every Update carrying the command `start` with chat id `C` and
sender first name `N`, the Dispatcher produces exactly one reply whose text
contains the decimal rendering of `C` as a literal substring and greets `N`
by first name, and whose inline-button set consists of exactly one button
labeled "Go to UniShark Website" whose target URL is
`https://unishark.site`. -/
theorem start_command_reply (u : Update)
    (hcmd : commandOf u.messageText = some "start") :
    dispatch u = some (start u) ∧
    pyIn (toString u.chatId) (start u).text = true ∧
    pyIn u.userFirstName (start u).text = true ∧
    (start u).replyMarkup.flatten =
      [{ label := "Go to UniShark Website", url := "https://unishark.site" }] := by
  refine ⟨by simp [dispatch, handlerFor, hcmd], ?_, ?_, rfl⟩
  · exact pyIn_of_parts _ _
      (startPre.data ++ u.userFirstName.data ++ startMid.data) startPost.data
      (by simp only [start, startMessage, startPre, startMid, startPost,
            String.data_append, List.append_assoc])
  · exact pyIn_of_parts _ _
      startPre.data
      (startMid.data ++ (toString u.chatId).data ++ startPost.data)
      (by simp only [start, startMessage, startPre, startMid, startPost,
            String.data_append, List.append_assoc])

/-- Witness for `start_command_reply` at a concrete `/start` update. -/
theorem start_command_reply_witness :
    commandOf "/start" = some "start" ∧
    (dispatch ⟨7, "Nadia", "/start"⟩ = some (start ⟨7, "Nadia", "/start"⟩) ∧
      pyIn (toString (7 : Int)) (start ⟨7, "Nadia", "/start"⟩).text = true ∧
      pyIn "Nadia" (start ⟨7, "Nadia", "/start"⟩).text = true ∧
      (start ⟨7, "Nadia", "/start"⟩).replyMarkup.flatten =
        [{ label := "Go to UniShark Website", url := "https://unishark.site" }]) :=
  ⟨by decide, start_command_reply ⟨7, "Nadia", "/start"⟩ (by decide)⟩

/-- C2: for every plain-text (non-command) Update whose message text
contains the second trigger phrase "حرفوش" as a substring anywhere, the
Dispatcher replies with the second canned phrase "حرفوش عمك" (for all such
texts, even though the handler checks the exact-match trigger first, since
the first trigger does not contain the second phrase). -/
theorem second_trigger_substring (u : Update)
    (hplain : filters_COMMAND u.messageText = false)
    (hsub : pyIn "حرفوش" u.messageText = true) :
    dispatch u = some { text := "حرفوش عمك", replyMarkup := [] } := by
  have hne : u.messageText ≠ "كسمك" := by
    intro he
    rw [he] at hsub
    exact absurd hsub (by decide)
  have hcmd : commandOf u.messageText = none := by
    simp [commandOf, hplain]
  simp [dispatch, handlerFor, hcmd, hplain, handle_message, hne, hsub]

/-- Witness for `second_trigger_substring` on a text that embeds the second
trigger in a longer string. -/
theorem second_trigger_substring_witness :
    filters_COMMAND "قال حرفوش كسمك" = false ∧
    pyIn "حرفوش" "قال حرفوش كسمك" = true ∧
    dispatch ⟨3, "N", "قال حرفوش كسمك"⟩ =
      some { text := "حرفوش عمك", replyMarkup := [] } :=
  ⟨by decide, by decide,
    second_trigger_substring ⟨3, "N", "قال حرفوش كسمك"⟩ (by decide) (by decide)⟩

/-- C3: for every plain-text Update whose text exactly equals the first
trigger phrase "كسمك", the Dispatcher replies with exactly the first canned
phrase "الله يسامحك" and nothing else; a text that merely contains the
first trigger as a proper substring never fires this trigger. -/
theorem first_trigger_exact :
    (∀ (c : Int) (n : String),
      dispatch ⟨c, n, "كسمك"⟩ = some { text := "الله يسامحك", replyMarkup := [] }) ∧
    ∀ u : Update, u.messageText ≠ "كسمك" →
      dispatch u ≠ some { text := "الله يسامحك", replyMarkup := [] } := by
  constructor
  · intro c n
    rfl
  · intro u hne h
    have hm := handle_message_ne u.messageText hne
    unfold dispatch at h
    cases hh : handlerFor u.messageText with
    | none =>
      rw [hh] at h
      exact Option.noConfusion h
    | some hd =>
      rw [hh] at h
      cases hd with
      | startHandler =>
        simp only [Option.some.injEq] at h
        have := congrArg Reply.replyMarkup h
        simp [start] at this
      | messageHandler =>
        rcases hm with hm | hm <;> rw [hm] at h <;> simp at h

/-- Witness for `first_trigger_exact`: the exact trigger fires, and the
text "ياكسمك يا زلمة" (a proper superstring of the trigger) does not. -/
theorem first_trigger_exact_witness :
    dispatch ⟨5, "N", "كسمك"⟩ =
      some { text := "الله يسامحك", replyMarkup := [] } ∧
    ("ياكسمك يا زلمة" : String) ≠ "كسمك" ∧
    dispatch ⟨5, "N", "ياكسمك يا زلمة"⟩ ≠
      some { text := "الله يسامحك", replyMarkup := [] } :=
  ⟨first_trigger_exact.1 5 "N", by decide,
    first_trigger_exact.2 ⟨5, "N", "ياكسمك يا زلمة"⟩ (by decide)⟩

/-- C4: for every plain-text Update whose text neither equals the first
trigger nor contains the second as a substring, the Dispatcher produces no
reply at all; and for every Update whatsoever, the Dispatcher produces at
most one outbound reply. -/
theorem no_trigger_no_reply (u : Update)
    (hplain : filters_COMMAND u.messageText = false)
    (h1 : u.messageText ≠ "كسمك")
    (h2 : pyIn "حرفوش" u.messageText = false) :
    dispatch u = none ∧ ∀ v : Update, (dispatch v).toList.length ≤ 1 := by
  constructor
  · have hcmd : commandOf u.messageText = none := by
      simp [commandOf, hplain]
    simp [dispatch, handlerFor, hcmd, hplain, handle_message, h1, h2]
  · intro v
    cases dispatch v <;> simp

/-- Witness for `no_trigger_no_reply` on an ordinary greeting text. -/
theorem no_trigger_no_reply_witness :
    filters_COMMAND "hello" = false ∧
    ("hello" : String) ≠ "كسمك" ∧
    pyIn "حرفوش" "hello" = false ∧
    (dispatch ⟨2, "N", "hello"⟩ = none ∧
      ∀ v : UniSharkBot.Update, (dispatch v).toList.length ≤ 1) :=
  ⟨by decide, by decide, by decide,
    no_trigger_no_reply ⟨2, "N", "hello"⟩ (by decide) (by decide) (by decide)⟩

/-- C5: every webhook POST gets a response determined only by its own body:
a decoded update is enqueued and answered 200 with an empty body, a
malformed one is answered 500 with an empty body, and a failure never
terminates the listener — every later well-formed request in the sequence
still gets its 200. -/
theorem webhook_responses (q : List Update) (reqs : List WebhookBody) :
    (processRequests q reqs).1 =
      reqs.map (fun r => match r with
        | .valid _ => ((200 : Nat), "")
        | .malformed => ((500 : Nat), "")) ∧
    (processRequests q reqs).2 =
      q ++ reqs.filterMap (fun r => match r with
        | .valid u => some u
        | .malformed => none) := by
  induction reqs generalizing q with
  | nil => simp [processRequests]
  | cons r rest ih =>
    cases r with
    | valid u =>
      simp [processRequests, telegram_webhook, ih (q ++ [u])]
    | malformed =>
      simp [processRequests, telegram_webhook, ih q]

/-- C6: with the token present, the polling variant is selected exactly when
the configured callback URL is absent or local, the webhook variant exactly
otherwise, and the two are mutually exclusive. -/
theorem mode_selection (cfg : Config)
    (htok : pyTruthy cfg.TELEGRAM_BOT_TOKEN = true) :
    (mainMode cfg = Mode.polling ↔ is_local cfg = true) ∧
    (mainMode cfg = Mode.webhook ↔ is_local cfg = false) ∧
    ¬(mainMode cfg = Mode.polling ∧ mainMode cfg = Mode.webhook) := by
  cases hl : is_local cfg <;> simp [mainMode, htok, hl]

/-- Witness for `mode_selection`: a production URL selects webhook mode, a
missing URL selects polling mode. -/
theorem mode_selection_witness :
    pyTruthy (some "123:abc") = true ∧
    ((mainMode ⟨some "123:abc", some "https://unishark.site/"⟩ = Mode.polling ↔
        is_local ⟨some "123:abc", some "https://unishark.site/"⟩ = true) ∧
      (mainMode ⟨some "123:abc", some "https://unishark.site/"⟩ = Mode.webhook ↔
        is_local ⟨some "123:abc", some "https://unishark.site/"⟩ = false) ∧
      ¬(mainMode ⟨some "123:abc", some "https://unishark.site/"⟩ = Mode.polling ∧
        mainMode ⟨some "123:abc", some "https://unishark.site/"⟩ = Mode.webhook)) :=
  ⟨by decide, mode_selection ⟨some "123:abc", some "https://unishark.site/"⟩ (by decide)⟩

/-- C7: with the bot token absent, `main` only logs an error and exits: its
effect trace opens no listener, registers no webhook and starts no
polling. -/
theorem missing_token_no_serve (cfg : Config) (port : Nat)
    (htok : pyTruthy cfg.TELEGRAM_BOT_TOKEN = false) :
    mainTrace cfg port = [Effect.logError] ∧
    (∀ h p, Effect.openListener h p ∉ mainTrace cfg port) ∧
    (∀ url d, Effect.setWebhook url d ∉ mainTrace cfg port) ∧
    Effect.startPolling ∉ mainTrace cfg port := by
  have htr : mainTrace cfg port = [Effect.logError] := by
    simp [mainTrace, htok]
  refine ⟨htr, ?_, ?_, ?_⟩ <;> simp [htr]

/-- Witness for `missing_token_no_serve` with no token in the environment. -/
theorem missing_token_no_serve_witness :
    pyTruthy none = false ∧
    (mainTrace ⟨none, some "https://unishark.site/"⟩ 8000 = [Effect.logError] ∧
      (∀ h p, Effect.openListener h p ∉ mainTrace ⟨none, some "https://unishark.site/"⟩ 8000) ∧
      (∀ url d, Effect.setWebhook url d ∉ mainTrace ⟨none, some "https://unishark.site/"⟩ 8000) ∧
      Effect.startPolling ∉ mainTrace ⟨none, some "https://unishark.site/"⟩ 8000) :=
  ⟨rfl, missing_token_no_serve ⟨none, some "https://unishark.site/"⟩ 8000 rfl⟩

/-- C8: every GET to `/` or `/health` is answered 200 with body exactly
"OK\n", whatever state `st` the bot or platform is in. -/
theorem health_endpoints {α : Type} (st : α) :
    routeGet st "/" = some (200, "OK\n") ∧
    routeGet st "/health" = some (200, "OK\n") := by
  exact ⟨rfl, rfl⟩

/-- C9: in the polling variant the webhook deletion (with pending updates
dropped) appears in the effect trace, polling start appears in the effect
trace, and every occurrence of the former comes strictly before every
occurrence of the latter. -/
theorem delete_webhook_before_polling :
    Effect.deleteWebhook true ∈ run_bot_polling_trace ∧
    Effect.startPolling ∈ run_bot_polling_trace ∧
    ∀ (i j : Fin run_bot_polling_trace.length),
      run_bot_polling_trace.get i = Effect.deleteWebhook true →
      run_bot_polling_trace.get j = Effect.startPolling →
      i < j := by
  refine ⟨by decide, by decide, ?_⟩
  decide

/-- Witness for `delete_webhook_before_polling` at the concrete trace
positions 2 and 5. -/
theorem delete_webhook_before_polling_witness :
    run_bot_polling_trace.get ⟨2, by decide⟩ = Effect.deleteWebhook true ∧
    run_bot_polling_trace.get ⟨5, by decide⟩ = Effect.startPolling ∧
    (⟨2, by decide⟩ : Fin run_bot_polling_trace.length) < ⟨5, by decide⟩ :=
  ⟨rfl, rfl,
    delete_webhook_before_polling.2.2 ⟨2, by decide⟩ ⟨5, by decide⟩ rfl rfl⟩

/-- C10: a command message (text beginning with "/") is never handled by the
plain-text trigger handler, so no canned trigger reply is produced for it:
any reply the Dispatcher produces for a command update is the `/start`
welcome reply. -/
theorem command_never_plain_handled (u : Update)
    (hcmd : filters_COMMAND u.messageText = true) :
    handlerFor u.messageText ≠ some Handler.messageHandler ∧
    ∀ r, dispatch u = some r → r = start u := by
  have hfor : handlerFor u.messageText ≠ some Handler.messageHandler := by
    unfold handlerFor
    by_cases hs : commandOf u.messageText = some "start"
    · rw [if_pos hs]
      simp
    · rw [if_neg hs, hcmd]
      simp
  refine ⟨hfor, ?_⟩
  intro r hr
  unfold dispatch at hr
  cases hh : handlerFor u.messageText with
  | none =>
    rw [hh] at hr
    exact Option.noConfusion hr
  | some hd =>
    cases hd with
    | startHandler =>
      rw [hh] at hr
      simpa using hr.symm
    | messageHandler =>
      exact absurd hh hfor

/-- Witness for `command_never_plain_handled` on a command text containing
the second trigger phrase. -/
theorem command_never_plain_handled_witness :
    filters_COMMAND "/echo حرفوش" = true ∧
    (handlerFor "/echo حرفوش" ≠ some Handler.messageHandler ∧
      ∀ r, dispatch ⟨4, "N", "/echo حرفوش"⟩ = some r → r = start ⟨4, "N", "/echo حرفوش"⟩) :=
  ⟨by decide, command_never_plain_handled ⟨4, "N", "/echo حرفوش"⟩ (by decide)⟩

end UniSharkBot
